import Mathlib

/-!
Shallow embedding of the command translation and dispatch layer of
src/python/server.py (Freeplane application-control MCP server), together
with proofs of the specified properties.

Modelling conventions:
* Python JSON-compatible values are the inductive `Json`; dict-shaped
  argument mappings are association lists `List (String × Json)` in which
  the first occurrence of a key wins (Python dicts have unique keys, so
  the restriction is conservative).
* The HTTP round trip performed by `requests` is an oracle `Transport`:
  one request either yields a parsed JSON body, fails with a
  `requests.RequestException` (connection refused, timeout, malformed
  response body — in requests the JSON decode error is a RequestException
  subclass), or raises some other exception out of the requests stack.
* Python exceptions are the `Except String` monad: `Except.error msg`
  is an exception propagating with description `msg`; the message texts
  abbreviate those of CPython.
* `call_tool` returns a single `list[TextContent]` with one JSON-dumped
  document; serialization is elided, the embedding returns the document.
-/

namespace FreeplaneMCP

/-- JSON-compatible Python values (None, bool, int, str, list, dict). -/
inductive Json where
  | null
  | bool (b : Bool)
  | num (n : Int)
  | str (s : String)
  | arr (elems : List Json)
  | obj (fields : List (String × Json))

/-- Python truthiness of a JSON-compatible value (`bool(v)`). -/
def truthy : Json → Bool
  | Json.null => false
  | Json.bool b => b
  | Json.num n => n != 0
  | Json.str s => !s.isEmpty
  | Json.arr elems => !elems.isEmpty
  | Json.obj fields => !fields.isEmpty

/-- `d.get(key)` on an argument mapping: the value, or None when absent. -/
def argsGet (key : String) (args : List (String × Json)) : Json :=
  (args.lookup key).getD Json.null

/-- `key in d` on an argument mapping. -/
def hasKeyArgs (key : String) (args : List (String × Json)) : Bool :=
  (args.lookup key).isSome

/-- Whether the second character list starts with the first. -/
def charsStartWith : List Char → List Char → Bool
  | [], _ => true
  | _ :: _, [] => false
  | a :: as, b :: bs => a == b && charsStartWith as bs

/-- Whether the second character list contains the first as a contiguous run. -/
def charsContain (needle : List Char) : List Char → Bool
  | [] => needle.isEmpty
  | c :: cs => charsStartWith needle (c :: cs) || charsContain needle cs

/-- Python `key in r` on an arbitrary JSON value: key membership for a dict,
substring for a string, element equality for a list, and a TypeError for the
non-iterable values (None, bool, int). -/
def pyContains (key : String) : Json → Except String Bool
  | Json.obj fields => Except.ok (fields.any (fun kv => kv.fst == key))
  | Json.str s => Except.ok (charsContain key.toList s.toList)
  | Json.arr elems =>
      Except.ok (elems.any (fun e =>
        match e with
        | Json.str t => t == key
        | _ => false))
  | _ => Except.error "TypeError: argument of type is not iterable"

/-- Python `r.get(key)` on an arbitrary JSON value: defined only for a dict
(absent key gives None); anything else is an AttributeError. -/
def pyDictGet (key : String) : Json → Except String Json
  | Json.obj fields => Except.ok ((fields.lookup key).getD Json.null)
  | _ => Except.error "AttributeError: object has no attribute get"

/-- The body `{"command": command, "params": params}` POSTed to /execute
(server.py line 56). -/
structure BridgeRequest where
  command : String
  params : List (String × Json)

/-- Outcome of one HTTP round trip through `requests`: a parsed JSON body, a
`requests.RequestException` (connection refused, timeout, malformed body), or
some other exception raised out of the transport stack. -/
inductive HttpOutcome where
  | ok (body : Json)
  | netError (e : String)
  | raised (e : String)

/-- Environment oracle for the bridge: the response to GET /status and the
response to each POST /execute request. The per-call model needs only one
status outcome; distinct execute requests may answer differently. -/
structure Transport where
  statusResp : HttpOutcome
  respond : BridgeRequest → HttpOutcome

/-- Constructs the /execute request body from a command and params
(server.py line 56; `params or {}` is the identity on the mappings the
dispatcher actually passes, since an empty dict is already `{}`). -/
def BridgeRequest.ofCall (command : String) (params : List (String × Json)) : BridgeRequest :=
  { command := command, params := params }

/-- FreeplaneClient.check_connection (server.py lines 36-49): GET /status,
returning its JSON on success and the error/details/hint object on any
RequestException; any other exception propagates. -/
def FreeplaneClient.check_connection (t : Transport) : Except String Json :=
  match t.statusResp with
  | HttpOutcome.ok body => Except.ok body
  | HttpOutcome.netError e =>
      Except.ok (Json.obj
        [("error", Json.str "Cannot connect to Freeplane bridge"),
         ("details", Json.str e),
         ("hint", Json.str "Make sure Freeplane is running and the FreeplaneHttpBridge.groovy script is executed")])
  | HttpOutcome.raised e => Except.error e

/-- How FreeplaneClient.execute handles the transport outcome: the parsed
JSON on success, `{"error": str(e)}` on any RequestException; any other
exception propagates (server.py lines 53-61). -/
def handleExecResponse : HttpOutcome → Except String Json
  | HttpOutcome.ok body => Except.ok body
  | HttpOutcome.netError e => Except.ok (Json.obj [("error", Json.str e)])
  | HttpOutcome.raised e => Except.error e

/-- FreeplaneClient.execute (server.py lines 51-61): POST /execute with body
`{"command": command, "params": params}` and convert the outcome. -/
def FreeplaneClient.execute (t : Transport) (command : String) (params : List (String × Json)) :
    Except String Json :=
  handleExecResponse (t.respond (BridgeRequest.ofCall command params))

/-- The tool-name → bridge-command mapping built in call_tool
(server.py lines 383-409). -/
def command_map : List (String × String) :=
  [("get_map_info", "get_map_info"),
   ("get_selected_node", "get_selected_node"),
   ("select_node", "select_node"),
   ("navigate_to_parent", "navigate_to_parent"),
   ("navigate_to_child", "navigate_to_child"),
   ("create_child_node", "create_child"),
   ("create_sibling_node", "create_sibling"),
   ("set_node_text", "set_node_text"),
   ("delete_node", "delete_node"),
   ("set_node_color", "set_node_color"),
   ("set_background_color", "set_background_color"),
   ("set_node_style", "set_node_style"),
   ("add_icon", "add_icon"),
   ("remove_icon", "remove_icon"),
   ("list_icons", "list_icons"),
   ("add_connector", "add_connector"),
   ("remove_connector", "remove_connector"),
   ("set_node_attribute", "set_attribute"),
   ("get_node_attributes", "get_attributes"),
   ("set_node_note", "set_note"),
   ("get_node_note", "get_note"),
   ("fold_node", "fold_node"),
   ("unfold_node", "unfold_node"),
   ("center_on_node", "center_on_node"),
   ("find_nodes", "find_nodes")]

/-- The names of the tools in the catalog returned by list_tools, in catalog
order (server.py lines 68-370). Descriptions and input schemas are
descriptive-only data unused by dispatch and are elided. -/
def list_tools : List String :=
  ["check_connection",
   "get_map_info",
   "get_selected_node",
   "select_node",
   "navigate_to_parent",
   "navigate_to_child",
   "create_child_node",
   "create_sibling_node",
   "set_node_text",
   "delete_node",
   "set_node_color",
   "set_background_color",
   "set_node_style",
   "set_font_formatting",
   "add_icon",
   "remove_icon",
   "list_icons",
   "add_connector",
   "remove_connector",
   "set_node_attribute",
   "get_node_attributes",
   "set_node_note",
   "get_node_note",
   "fold_node",
   "unfold_node",
   "center_on_node",
   "find_nodes"]

/-- The params dict built for one font sub-call (server.py lines 415-417,
422-424, 429-431): the node identifier plus the single attribute. Inside the
guarded blocks the attribute key is present, so the subscript
`arguments[attr]` agrees with `argsGet attr`. -/
def fontParams (attr : String) (arguments : List (String × Json)) : List (String × Json) :=
  [("node_id", argsGet "node_id" arguments), (attr, argsGet attr arguments)]

/-- The `results` list accumulated by the set_font_formatting branch
(server.py lines 413-433): one bridge execute call per present key among
bold, italic, size, appended in that order. -/
def fontResults (t : Transport) (arguments : List (String × Json)) :
    Except String (List Json) := do
  let results : List Json := []
  let results ←
    if hasKeyArgs "bold" arguments then do
      let res ← FreeplaneClient.execute t "set_font_bold" (fontParams "bold" arguments)
      pure (results ++ [res])
    else pure results
  let results ←
    if hasKeyArgs "italic" arguments then do
      let res ← FreeplaneClient.execute t "set_font_italic" (fontParams "italic" arguments)
      pure (results ++ [res])
    else pure results
  let results ←
    if hasKeyArgs "size" arguments then do
      let res ← FreeplaneClient.execute t "set_font_size" (fontParams "size" arguments)
      pure (results ++ [res])
    else pure results
  return results

/-- `all(r.get("success") for r in results if "success" in r)`
(server.py line 437), with Python generator semantics: elements are examined
left to right, the conjunction short-circuits at the first falsy value, and
`in` / `.get` on a non-dict element may raise. -/
def allSuccess : List Json → Except String Bool
  | [] => Except.ok true
  | r :: rs => do
    let c ← pyContains "success" r
    if c then do
      let v ← pyDictGet "success" r
      if truthy v then allSuccess rs else return false
    else
      allSuccess rs

/-- The whole body of the `try` block of call_tool (server.py lines 376-448):
the check_connection special case, the set_font_formatting composite
expansion with its aggregate, the command_map lookup with the unknown-tool
error (the Python `if not command` test also treats an empty command string as
unknown), and delegation to execute. An `Except.error` is an exception
escaping the body. -/
def dispatchBody (t : Transport) (name : String) (arguments : List (String × Json)) :
    Except String Json :=
  if name = "check_connection" then
    FreeplaneClient.check_connection t
  else if name = "set_font_formatting" then do
    let results ← fontResults t arguments
    let ok ← allSuccess results
    return Json.obj [("results", Json.arr results), ("success", Json.bool ok)]
  else
    match command_map.lookup name with
    | none => Except.ok (Json.obj [("error", Json.str ("Unknown tool: " ++ name))])
    | some command =>
      if command.isEmpty then
        Except.ok (Json.obj [("error", Json.str ("Unknown tool: " ++ name))])
      else
        FreeplaneClient.execute t command arguments

/-- call_tool (server.py lines 373-454): run the dispatch body and convert
any escaping exception into the `{"error": ..., "tool": ...}` envelope at the
outermost boundary. -/
def call_tool (t : Transport) (name : String) (arguments : List (String × Json)) : Json :=
  match dispatchBody t name arguments with
  | Except.ok result => result
  | Except.error e => Json.obj [("error", Json.str e), ("tool", Json.str name)]

/-- Whether a JSON value is an object (a Python dict). -/
def isObj : Json → Bool
  | Json.obj _ => true
  | _ => false

/-- Whether a JSON object carries a top-level "success" key (false on
non-objects). -/
def hasSuccessKey : Json → Bool
  | Json.obj fields => fields.any (fun kv => kv.fst == "success")
  | _ => false

/-- The value under the top-level "success" key of a JSON object (None when
absent or on a non-object). -/
def successValue : Json → Json
  | Json.obj fields => (fields.lookup "success").getD Json.null
  | _ => Json.null

/-- Comparison definition following the spec (section 4.3 aggregation rule):
the logical AND over every sub-result that itself contains a "success" key,
sub-results lacking that key being excluded from the AND; true over the
empty sequence. -/
def specSuccessAnd (rs : List Json) : Bool :=
  (rs.filter hasSuccessKey).all (fun r => truthy (successValue r))

/-- Comparison definition following the spec (section 4.3): the bridge
commands to issue for a composite font-formatting call, one per key among
bold, italic, size actually present in the arguments — and only those —
in that fixed order, each paired with its attribute key. -/
def fontCallPlan (arguments : List (String × Json)) : List (String × String) :=
  (if hasKeyArgs "bold" arguments then [("set_font_bold", "bold")] else []) ++
    (if hasKeyArgs "italic" arguments then [("set_font_italic", "italic")] else []) ++
      (if hasKeyArgs "size" arguments then [("set_font_size", "size")] else [])

/-- Comparison definition following the spec (section 4.3): execute the
planned sub-calls left to right, collecting the sub-results in order. -/
def planResults (t : Transport) (arguments : List (String × Json)) :
    List (String × String) → Except String (List Json)
  | [] => Except.ok []
  | c :: cs => do
    let r ← FreeplaneClient.execute t c.fst (fontParams c.snd arguments)
    let rest ← planResults t arguments cs
    return r :: rest

/-- The top-level keys of a JSON object (empty on non-objects). -/
def topLevelKeys : Json → List String
  | Json.obj fields => fields.map Prod.fst
  | _ => []

/-- Reduction of the Except monad bind on a success value. -/
theorem except_ok_bind {α β : Type} (a : α) (f : α → Except String β) :
    (Except.ok a : Except String α) >>= f = f a := rfl

/-- Reduction of the Except monad bind on a propagating exception. -/
theorem except_error_bind {α β : Type} (e : String) (f : α → Except String β) :
    (Except.error e : Except String α) >>= f = Except.error e := rfl

/-- Reduction of pure in the Except monad. -/
theorem except_pure_eq {α : Type} (a : α) :
    (pure a : Except String α) = Except.ok a := rfl

/-- On a list of sub-results that are all objects, the aggregation generator
of server.py line 437 never raises and computes exactly the specified AND over
the sub-results that carry a "success" key. -/
theorem allSuccess_of_objs (rs : List Json) (hobj : ∀ r ∈ rs, isObj r = true) :
    allSuccess rs = Except.ok (specSuccessAnd rs) := by
  induction rs with
  | nil => rfl
  | cons r rs ih =>
    have hr : isObj r = true := hobj r (List.mem_cons_self r rs)
    have hrs : ∀ x ∈ rs, isObj x = true := fun x hx => hobj x (List.mem_cons_of_mem r hx)
    have ih2 := ih hrs
    cases r with
    | obj fields =>
      by_cases hk : fields.any (fun kv => kv.fst == "success") = true
      · by_cases hv : truthy ((fields.lookup "success").getD Json.null) = true
        · simp [allSuccess, pyContains, pyDictGet, except_ok_bind, except_pure_eq,
            hk, hv, ih2, specSuccessAnd, hasSuccessKey, successValue]
        · simp [allSuccess, pyContains, pyDictGet, except_ok_bind, except_pure_eq,
            hk, hv, specSuccessAnd, hasSuccessKey, successValue]
      · simp [allSuccess, pyContains, except_ok_bind, except_pure_eq, hk, ih2,
          specSuccessAnd, hasSuccessKey]
    | null => exact absurd hr (by simp [isObj])
    | bool b => exact absurd hr (by simp [isObj])
    | num n => exact absurd hr (by simp [isObj])
    | str s => exact absurd hr (by simp [isObj])
    | arr elems => exact absurd hr (by simp [isObj])

/-- C1: a single invocation of call_tool returns exactly one JSON result
document for every tool name and argument mapping: either the dispatch body
succeeds and its document is returned as-is, or the fault raised anywhere in
the dispatch body is caught at the outermost boundary and converted to an
error object carrying the failure description and the tool name; no
exception escapes (call_tool is a total function into Json). -/
theorem call_tool_single_json_envelope (t : Transport) (name : String)
    (arguments : List (String × Json)) :
    dispatchBody t name arguments = Except.ok (call_tool t name arguments) ∨
      ∃ e, dispatchBody t name arguments = Except.error e ∧
        call_tool t name arguments =
          Json.obj [("error", Json.str e), ("tool", Json.str name)] := by
  cases h : dispatchBody t name arguments with
  | ok r => left; simp [call_tool, h]
  | error e => right; exact ⟨e, rfl, by simp [call_tool, h]⟩

/-- C2: every tool name in the catalog returned by list_tools is either the
special-cased connection-check tool, a key of command_map, or the
special-cased composite font-formatting tool — exactly the condition under
which dispatch never reaches the unknown-tool branch for a catalog name. -/
theorem catalog_names_partition :
    ∀ n ∈ list_tools,
      n = "check_connection" ∨ (command_map.lookup n).isSome = true ∨
        n = "set_font_formatting" := by
  decide

/-- Witness for C2 at the concrete catalog name "find_nodes". -/
theorem catalog_names_partition_witness :
    ("find_nodes" ∈ list_tools) ∧
      ("find_nodes" = "check_connection" ∨
        (command_map.lookup "find_nodes").isSome = true ∨
          "find_nodes" = "set_font_formatting") :=
  ⟨by decide, catalog_names_partition "find_nodes" (by decide)⟩

/-- C6: a tool name that is neither special case nor a key of command_map
yields the unknown-tool error object naming the offending tool; the result
is independent of the transport (no bridge call is attempted) and the
dispatch body succeeds (no exception is thrown). -/
theorem unknown_tool_yields_error_object (t : Transport) (name : String)
    (arguments : List (String × Json))
    (h1 : name ≠ "check_connection") (h2 : name ≠ "set_font_formatting")
    (h3 : command_map.lookup name = none) :
    dispatchBody t name arguments =
        Except.ok (Json.obj [("error", Json.str ("Unknown tool: " ++ name))]) ∧
      call_tool t name arguments =
        Json.obj [("error", Json.str ("Unknown tool: " ++ name))] := by
  have hd : dispatchBody t name arguments =
      Except.ok (Json.obj [("error", Json.str ("Unknown tool: " ++ name))]) := by
    simp [dispatchBody, h1, h2, h3]
  exact ⟨hd, by simp [call_tool, hd]⟩

/-- Transport that raises on every request, for the C6 witness: the
unknown-tool result is produced without any bridge interaction. -/
def tRaiseC6 : Transport :=
  { statusResp := HttpOutcome.raised "unreachable",
    respond := fun _ => HttpOutcome.raised "unreachable" }

/-- Witness for C6 at the concrete unregistered name "bogus_tool". -/
theorem unknown_tool_yields_error_object_witness :
    dispatchBody tRaiseC6 "bogus_tool" [] =
        Except.ok (Json.obj [("error", Json.str ("Unknown tool: " ++ "bogus_tool"))]) ∧
      call_tool tRaiseC6 "bogus_tool" [] =
        Json.obj [("error", Json.str ("Unknown tool: " ++ "bogus_tool"))] :=
  unknown_tool_yields_error_object tRaiseC6 "bogus_tool" []
    (by decide) (by decide) (by decide)

/-- C7: for a non-composite, non-special tool resolved by command_map, the
dispatch body is exactly one bridge execute whose request is built from the
resolved command and the caller-supplied argument mapping, and the params
field of that request is the mapping of the caller itself — no key renamed,
dropped, or value changed. -/
theorem ordinary_tool_args_roundtrip (t : Transport) (name command : String)
    (arguments : List (String × Json))
    (h1 : name ≠ "check_connection") (h2 : name ≠ "set_font_formatting")
    (h3 : command_map.lookup name = some command) (h4 : command.isEmpty = false) :
    dispatchBody t name arguments =
        handleExecResponse (t.respond (BridgeRequest.ofCall command arguments)) ∧
      (BridgeRequest.ofCall command arguments).params = arguments := by
  constructor
  · simp [dispatchBody, h1, h2, h3, h4, FreeplaneClient.execute]
  · rfl

/-- Transport echoing a success object, for the C7 witness. -/
def tEchoC7 : Transport :=
  { statusResp := HttpOutcome.ok Json.null,
    respond := fun _ => HttpOutcome.ok (Json.obj [("success", Json.bool true)]) }

/-- Witness for C7 at the concrete tool "select_node" with one argument. -/
theorem ordinary_tool_args_roundtrip_witness :
    dispatchBody tEchoC7 "select_node" [("node_id", Json.str "ID_1")] =
        handleExecResponse
          (tEchoC7.respond (BridgeRequest.ofCall "select_node" [("node_id", Json.str "ID_1")])) ∧
      (BridgeRequest.ofCall "select_node" [("node_id", Json.str "ID_1")]).params =
        [("node_id", Json.str "ID_1")] :=
  ordinary_tool_args_roundtrip tEchoC7 "select_node" "select_node"
    [("node_id", Json.str "ID_1")] (by decide) (by decide) (by decide) (by decide)

/-- C8: on a transport-level failure (a RequestException: connection refused,
timeout, malformed response) check_connection returns an object carrying
error, details (with the underlying failure description) and hint fields,
and execute returns an object carrying only an error field with the failure
description; both are ordinary returns, no exception passes the boundary. -/
theorem transport_failure_structured_results (t : Transport) (e : String) :
    (t.statusResp = HttpOutcome.netError e →
      FreeplaneClient.check_connection t = Except.ok (Json.obj
        [("error", Json.str "Cannot connect to Freeplane bridge"),
         ("details", Json.str e),
         ("hint", Json.str "Make sure Freeplane is running and the FreeplaneHttpBridge.groovy script is executed")])) ∧
      (∀ command params,
        t.respond (BridgeRequest.ofCall command params) = HttpOutcome.netError e →
          FreeplaneClient.execute t command params =
            Except.ok (Json.obj [("error", Json.str e)])) := by
  constructor
  · intro h; simp [FreeplaneClient.check_connection, h]
  · intro command params h; simp [FreeplaneClient.execute, handleExecResponse, h]

/-- Transport refusing every request, for the C8 witness. -/
def tDownC8 : Transport :=
  { statusResp := HttpOutcome.netError "connection refused",
    respond := fun _ => HttpOutcome.netError "connection refused" }

/-- Witness for C8 on a transport that refuses every request. -/
theorem transport_failure_structured_results_witness :
    FreeplaneClient.check_connection tDownC8 = Except.ok (Json.obj
        [("error", Json.str "Cannot connect to Freeplane bridge"),
         ("details", Json.str "connection refused"),
         ("hint", Json.str "Make sure Freeplane is running and the FreeplaneHttpBridge.groovy script is executed")]) ∧
      FreeplaneClient.execute tDownC8 "select_node" [] =
        Except.ok (Json.obj [("error", Json.str "connection refused")]) :=
  ⟨(transport_failure_structured_results tDownC8 "connection refused").1 rfl,
   (transport_failure_structured_results tDownC8 "connection refused").2 "select_node" [] rfl⟩

/-- C5: a composite font-formatting invocation whose arguments contain none
of the keys bold, italic, size collects zero sub-call results, and — for
every transport, so independently of the bridge — returns the vacuously
successful no-op object with an empty results array and success true. -/
theorem composite_no_keys_vacuous_noop (t : Transport) (arguments : List (String × Json))
    (hb : hasKeyArgs "bold" arguments = false)
    (hi : hasKeyArgs "italic" arguments = false)
    (hs : hasKeyArgs "size" arguments = false) :
    fontResults t arguments = Except.ok [] ∧
      call_tool t "set_font_formatting" arguments =
        Json.obj [("results", Json.arr []), ("success", Json.bool true)] := by
  have hfr : fontResults t arguments = Except.ok [] := by
    simp [fontResults, hb, hi, hs, except_ok_bind, except_pure_eq]
  refine ⟨hfr, ?_⟩
  simp [call_tool, dispatchBody, hfr, allSuccess, except_ok_bind, except_pure_eq]

/-- Transport that raises on every request, for the C5 witness: even then,
a composite call with only an unrecognized key is the vacuous no-op. -/
def tRaiseC5 : Transport :=
  { statusResp := HttpOutcome.raised "unreachable",
    respond := fun _ => HttpOutcome.raised "unreachable" }

/-- Witness for C5 at a mapping with only an unrecognized key. -/
theorem composite_no_keys_vacuous_noop_witness :
    fontResults tRaiseC5 [("garbage", Json.num 1)] = Except.ok [] ∧
      call_tool tRaiseC5 "set_font_formatting" [("garbage", Json.num 1)] =
        Json.obj [("results", Json.arr []), ("success", Json.bool true)] :=
  composite_no_keys_vacuous_noop tRaiseC5 [("garbage", Json.num 1)]
    (by decide) (by decide) (by decide)

/-- C10: when the caller omits the node identifier, the params mapping built
for every font sub-call still binds the key "node_id" explicitly to the null
value, and its keys are exactly "node_id" and the single attribute key, in
that order. -/
theorem font_subcall_params_node_id_null (arguments : List (String × Json))
    (h : arguments.lookup "node_id" = none) (attr : String) :
    fontParams attr arguments =
        [("node_id", Json.null), (attr, argsGet attr arguments)] ∧
      (fontParams attr arguments).map Prod.fst = ["node_id", attr] := by
  constructor
  · simp [fontParams, argsGet, h]
  · rfl

/-- Witness for C10 at the mapping with only a bold key. -/
theorem font_subcall_params_node_id_null_witness :
    fontParams "bold" [("bold", Json.bool true)] =
        [("node_id", Json.null), ("bold", argsGet "bold" [("bold", Json.bool true)])] ∧
      (fontParams "bold" [("bold", Json.bool true)]).map Prod.fst = ["node_id", "bold"] :=
  font_subcall_params_node_id_null [("bold", Json.bool true)] rfl "bold"

/-- Transport for the C3 counterexample: the set_font_bold sub-call answers
with a success object, every other request answers with the bare JSON
number 5 — a legal bridge response, since a bridge response is an arbitrary
JSON value. -/
def tMixedC3 : Transport :=
  { statusResp := HttpOutcome.ok Json.null,
    respond := fun r =>
      if r.command = "set_font_bold" then
        HttpOutcome.ok (Json.obj [("success", Json.bool true)])
      else
        HttpOutcome.ok (Json.num 5) }

/-- C3 counterexample: with sub-results [{"success": true}, 5], the claimed
composite object (both sub-results verbatim under "results", success = AND
over the sub-results carrying a "success" key, i.e. true) is not returned;
the membership test `"success" in 5` raises and call_tool returns the outer
error envelope, whose only top-level keys are "error" and "tool". -/
theorem composite_aggregation_counterexample :
    call_tool tMixedC3 "set_font_formatting"
        [("bold", Json.bool true), ("italic", Json.bool true)] =
      Json.obj [("error", Json.str "TypeError: argument of type is not iterable"),
                ("tool", Json.str "set_font_formatting")] ∧
      call_tool tMixedC3 "set_font_formatting"
          [("bold", Json.bool true), ("italic", Json.bool true)] ≠
        Json.obj [("results", Json.arr [Json.obj [("success", Json.bool true)], Json.num 5]),
                  ("success", Json.bool true)] := by
  constructor
  · rfl
  · intro hcontra
    have hkeys : topLevelKeys (call_tool tMixedC3 "set_font_formatting"
        [("bold", Json.bool true), ("italic", Json.bool true)]) = ["error", "tool"] := rfl
    rw [hcontra] at hkeys
    simp [topLevelKeys] at hkeys

/-- C3 (amended): for a composite font-formatting invocation whose collected
sub-results are all JSON objects — in particular whenever no sub-call is
reached after a non-object sub-result makes the aggregation raise — the
returned composite object carries every sub-result verbatim in "results" and
its top-level "success" flag is the logical AND over exactly those
sub-results that contain a "success" key, the others being excluded from the
AND. -/
theorem composite_aggregation_over_objects (t : Transport)
    (arguments : List (String × Json)) (rs : List Json)
    (hfr : fontResults t arguments = Except.ok rs)
    (hobj : ∀ r ∈ rs, isObj r = true) :
    call_tool t "set_font_formatting" arguments =
      Json.obj [("results", Json.arr rs), ("success", Json.bool (specSuccessAnd rs))] := by
  have ha := allSuccess_of_objs rs hobj
  simp [call_tool, dispatchBody, hfr, ha, except_ok_bind, except_pure_eq]

/-- Transport for the C3 amended witness: the bold sub-call succeeds, the
size sub-call reports failure. -/
def tObjsC3 : Transport :=
  { statusResp := HttpOutcome.ok Json.null,
    respond := fun r =>
      if r.command = "set_font_bold" then
        HttpOutcome.ok (Json.obj [("success", Json.bool true)])
      else
        HttpOutcome.ok (Json.obj [("success", Json.bool false)]) }

/-- Witness for the amended C3: two object sub-results, one success and one
failure, aggregate to success = false with both listed verbatim. -/
theorem composite_aggregation_over_objects_witness :
    call_tool tObjsC3 "set_font_formatting"
        [("bold", Json.bool true), ("size", Json.num 12)] =
      Json.obj [("results", Json.arr [Json.obj [("success", Json.bool true)],
                                      Json.obj [("success", Json.bool false)]]),
                ("success", Json.bool false)] :=
  composite_aggregation_over_objects tObjsC3
    [("bold", Json.bool true), ("size", Json.num 12)]
    [Json.obj [("success", Json.bool true)], Json.obj [("success", Json.bool false)]]
    rfl
    (by
      intro r hr
      simp [List.mem_cons] at hr
      rcases hr with h | h <;> simp [h, isObj])

/-- C4: the composite font-formatting branch issues exactly one bridge
execute sub-call per key among bold, italic, size present in the arguments —
and only for those — each carrying that single attribute plus the node
identifier, collected in the fixed order bold, italic, size: the collected
results coincide with executing the spec-side call plan; in particular with
only a bold key the collected results sequence has length 1. -/
theorem composite_subcall_plan (t : Transport) (arguments : List (String × Json)) :
    fontResults t arguments = planResults t arguments (fontCallPlan arguments) ∧
      (∀ rs, fontResults t [("bold", Json.bool true)] = Except.ok rs → rs.length = 1) := by
  constructor
  · cases hb : hasKeyArgs "bold" arguments <;>
      cases hi : hasKeyArgs "italic" arguments <;>
        cases hs : hasKeyArgs "size" arguments <;>
          · simp only [fontResults, fontCallPlan, planResults, hb, hi, hs,
              if_true, if_false, List.nil_append, List.append_nil,
              List.cons_append, List.singleton_append, except_ok_bind, except_pure_eq]
            cases FreeplaneClient.execute t "set_font_bold" (fontParams "bold" arguments) <;>
              cases FreeplaneClient.execute t "set_font_italic" (fontParams "italic" arguments) <;>
                cases FreeplaneClient.execute t "set_font_size" (fontParams "size" arguments) <;>
                  simp [planResults, except_ok_bind, except_error_bind, except_pure_eq]
  · intro rs h
    cases he : FreeplaneClient.execute t "set_font_bold" (fontParams "bold" [("bold", Json.bool true)]) with
    | ok r =>
      simp [fontResults, hasKeyArgs, he, except_ok_bind, except_pure_eq] at h
      simp [← h]
    | error e =>
      simp [fontResults, hasKeyArgs, he, except_error_bind, except_ok_bind, except_pure_eq] at h

/-- Transport answering every request with a success object, for the C4
witness. -/
def tOkC4 : Transport :=
  { statusResp := HttpOutcome.ok Json.null,
    respond := fun _ => HttpOutcome.ok (Json.obj [("success", Json.bool true)]) }

/-- Witness for C4: with only a bold key exactly one sub-result is
collected. -/
theorem composite_subcall_plan_witness :
    fontResults tOkC4 [("bold", Json.bool true)] =
        Except.ok [Json.obj [("success", Json.bool true)]] ∧
      ([Json.obj [("success", Json.bool true)]] : List Json).length = 1 :=
  ⟨rfl, (composite_subcall_plan tOkC4 [("bold", Json.bool true)]).2
    [Json.obj [("success", Json.bool true)]] rfl⟩

/-- C9: when every collected sub-result of a composite font-formatting
invocation is a transport-failure object carrying only an "error" key (and
hence no "success" key), the aggregated composite still reports
success = true with the per-sub-call error objects listed verbatim in
results — by the top-level flag alone, total transport failure is
indistinguishable from vacuous success. -/
theorem composite_all_failures_report_success (t : Transport)
    (arguments : List (String × Json)) (rs : List Json)
    (hfr : fontResults t arguments = Except.ok rs)
    (herr : ∀ r ∈ rs, ∃ e, r = Json.obj [("error", Json.str e)]) :
    call_tool t "set_font_formatting" arguments =
      Json.obj [("results", Json.arr rs), ("success", Json.bool true)] := by
  have hobj : ∀ r ∈ rs, isObj r = true := by
    intro r hr
    obtain ⟨e, he⟩ := herr r hr
    subst he
    rfl
  have ha := allSuccess_of_objs rs hobj
  have hspec : specSuccessAnd rs = true := by
    have hfilter : rs.filter hasSuccessKey = [] := by
      rw [List.filter_eq_nil_iff]
      intro r hr
      obtain ⟨e, he⟩ := herr r hr
      subst he
      simp [hasSuccessKey]
    simp [specSuccessAnd, hfilter]
  rw [hspec] at ha
  simp [call_tool, dispatchBody, hfr, ha, except_ok_bind, except_pure_eq]

/-- Transport refusing every request, for the C9 witness. -/
def tRefusedC9 : Transport :=
  { statusResp := HttpOutcome.netError "refused",
    respond := fun _ => HttpOutcome.netError "refused" }

/-- Witness for C9: both sub-calls fail at the transport level, yet the
composite reports success = true. -/
theorem composite_all_failures_report_success_witness :
    call_tool tRefusedC9 "set_font_formatting"
        [("bold", Json.bool true), ("italic", Json.bool true)] =
      Json.obj [("results", Json.arr [Json.obj [("error", Json.str "refused")],
                                      Json.obj [("error", Json.str "refused")]]),
                ("success", Json.bool true)] :=
  composite_all_failures_report_success tRefusedC9
    [("bold", Json.bool true), ("italic", Json.bool true)]
    [Json.obj [("error", Json.str "refused")], Json.obj [("error", Json.str "refused")]]
    rfl
    (by
      intro r hr
      simp [List.mem_cons] at hr
      exact ⟨"refused", by rw [hr]⟩)

end FreeplaneMCP
